import Mathlib

/-!
Shallow embedding of the policy-gated remediation controller
(`backend/src/policy.ts` and `backend/src/server.ts`).

Modelling conventions:
* JavaScript numbers are modelled as `JSNumber`: a rational value or one of
  the non-finite tags `nan`, `posInf`, `negInf`.  `Math.round x` is
  `⌊x + 1/2⌋` (round half toward +∞), `Math.ceil` is `⌈·⌉`, `Math.min` /
  `Math.max` are `min` / `max` on ℚ.
* Timestamps (`new Date().toISOString()` / `Date.now()`) are modelled as a
  single `now : ℕ` (epoch milliseconds) supplied per operation;
  `new Date(s).getTime()` is the identity under this encoding.
* `Math.random() * 5 - 2.5` (the cpu noise in `executeMonitor`) is modelled
  by a `noise : ℚ` parameter; its attainable range is `-5/2 ≤ noise < 5/2`.
* The random approval id `Math.random().toString(36).substring(7)` is
  modelled by a `freshId : String` parameter.
* The JS `Map` `pendingApprovals` is modelled as an insertion-ordered list;
  `Map.set` overwrites in place or appends, `Map.delete` filters.
* Only simulation mode is modelled (`registry.getActiveService()` returning
  `null`): the proxy branches perform network I/O and are outside the
  embedding.  The policy deny/defer paths of `executeScale` return before
  the service lookup, so they are mode-independent.
* Every caller of `executeScale` parses its argument from JSON (zod
  `z.number()` on HTTP bodies and MCP arguments), and JSON cannot encode
  non-finite numbers, so the state-machine operations take `replicas : ℚ`;
  the policy function itself is modelled on full `JSNumber`.
-/

/-- A JavaScript number as far as `Number.isFinite` / `Number.isInteger`
and the comparisons in `policy.validateScale` can observe it. -/
inductive JSNumber where
  | nan
  | posInf
  | negInf
  | finite (q : ℚ)
deriving DecidableEq

/-- `Number.isFinite`. -/
def JSNumber.isFinite : JSNumber → Bool
  | .finite _ => true
  | _ => false

/-- `Number.isInteger`: finite with an integral value. -/
def JSNumber.isInteger : JSNumber → Bool
  | .finite q => q.den == 1
  | _ => false

/-- The JS comparison `x < 0` (false on NaN). -/
def JSNumber.ltZero : JSNumber → Bool
  | .negInf => true
  | .finite q => decide (q < 0)
  | _ => false

/-- The JS comparison `x === 0`. -/
def JSNumber.eqZero : JSNumber → Bool
  | .finite q => decide (q = 0)
  | _ => false

/-- The JS comparison `x > 10` (false on NaN). -/
def JSNumber.gtTen : JSNumber → Bool
  | .posInf => true
  | .finite q => decide (10 < q)
  | _ => false

/-- The rational value of a finite JS number. -/
def JSNumber.toRat : JSNumber → Option ℚ
  | .finite q => some q
  | _ => none

/-- Return shape of `policy.validateScale` in `policy.ts`:
`{ allowed, approvalRequired?, reason?, requestDetails? }`.
`requestDetails` holds the `replicas` field of the `{ replicas }` object. -/
structure PolicyResult where
  allowed : Bool
  approvalRequired : Bool := false
  reason : Option String := none
  requestDetails : Option ℚ := none
deriving DecidableEq

/-- `policy.validateScale` (`policy.ts`, lines 8-46): the guard chain on
the requested replica count, short-circuiting at the first failing rule. -/
def validateScale (replicas : JSNumber) : PolicyResult :=
  if !replicas.isFinite then
    { allowed := false, reason := some "Replicas must be a finite number" }
  else if !replicas.isInteger then
    { allowed := false, reason := some "Replicas must be a whole number" }
  else if replicas.ltZero then
    { allowed := false, reason := some "Replicas cannot be negative" }
  else if replicas.eqZero then
    { allowed := false,
      reason := some "Cannot scale to zero replicas (would cause downtime)" }
  else if replicas.gtTen then
    { allowed := false, approvalRequired := true,
      reason := some "Policy Warning: High scale (>10) requires manual approval",
      requestDetails := replicas.toRat }
  else
    { allowed := true }

/-- `policy.validateRollback`: always allowed. -/
def validateRollback : PolicyResult := { allowed := true }

/-- The `systemStatus` enum of `server.ts`. -/
inductive HealthStatus where
  | HEALTHY
  | CRITICAL
deriving DecidableEq

/-- The `action` tag of a pending approval (only `"scale"` exists). -/
inductive ApprovalAction where
  | scale
deriving DecidableEq

/-- The `details` payload `{ replicas }` of a pending approval. -/
structure ApprovalDetails where
  replicas : ℚ
deriving DecidableEq

/-- The `PendingApproval` interface of `server.ts`. -/
structure PendingApproval where
  id : String
  action : ApprovalAction
  details : ApprovalDetails
  timestamp : ℕ
deriving DecidableEq

/-- The `IncidentReport` interface of `server.ts` (`final_status` is always
the string `"resolved"`). -/
structure IncidentReport where
  incident_id : String
  start_time : ℕ
  end_time : ℕ
  mttr_seconds : ℚ
  actions_taken : List String
  final_status : String
deriving DecidableEq

/-- The module-level mutable state of `server.ts`. -/
structure SystemState where
  systemStatus : HealthStatus
  activeReplicas : ℚ
  lastAlertTime : Option ℕ
  autoPilotMode : Bool
  currentLoad : ℚ
  incidentCount : ℕ
  pendingApprovals : List PendingApproval
  incidentReports : List IncidentReport
  activeIncidentId : Option String
deriving DecidableEq

/-- The initial values of the state variables in `server.ts`. -/
def initialState : SystemState :=
  { systemStatus := .HEALTHY
    activeReplicas := 3
    lastAlertTime := none
    autoPilotMode := false
    currentLoad := 100
    incidentCount := 0
    pendingApprovals := []
    incidentReports := []
    activeIncidentId := none }

/-- `CAPACITY_PER_REPLICA = 200` in `server.ts`. -/
def CAPACITY_PER_REPLICA : ℚ := 200

/-- `Math.round`: round half toward positive infinity. -/
def jsRound (q : ℚ) : ℤ := ⌊q + 1 / 2⌋

/-- The incident id `` `INC-${Date.now()}` ``. -/
def mkIncidentId (now : ℕ) : String := "INC-" ++ toString now

/-- `pendingApprovals.get id`. -/
def mapGet (m : List PendingApproval) (id : String) : Option PendingApproval :=
  m.find? (fun p => p.id == id)

/-- `pendingApprovals.set p.id p`: overwrite in place, else append. -/
def mapSet (m : List PendingApproval) (p : PendingApproval) : List PendingApproval :=
  if m.any (fun q => q.id == p.id) then
    m.map (fun q => if q.id == p.id then p else q)
  else
    m ++ [p]

/-- `pendingApprovals.delete id`. -/
def mapDelete (m : List PendingApproval) (id : String) : List PendingApproval :=
  m.filter (fun p => p.id != id)

/-- The noiseless simulated cpu of `executeMonitor`:
`Math.min(100, Math.round((currentLoad / (activeReplicas * 200)) * 100))`. -/
def simCpuBase (st : SystemState) : ℚ :=
  min 100 ((jsRound (st.currentLoad / (st.activeReplicas * CAPACITY_PER_REPLICA) * 100) : ℚ))

/-- The reported cpu after the noise term and clamping:
`Math.max(0, Math.min(100, cpu + (Math.random() * 5 - 2.5)))`. -/
def simCpu (st : SystemState) (noise : ℚ) : ℚ :=
  max 0 (min 100 (simCpuBase st + noise))

/-- The JSON payload returned by `executeMonitor` in simulation mode. -/
structure MonitorResult where
  status : HealthStatus
  cpu_load : ℚ
  memory_usage : ℚ
  replicas : ℚ
  alert_active : Bool
deriving DecidableEq

/-- `executeMonitor` (`server.ts`, simulation branch, lines 121-206):
computes the simulated metrics, classifies health, and on a
CRITICAL → cpu ≤ 90 recovery closes the episode by appending an
`IncidentReport` (with fallback id `INC-now` when no incident is open). -/
def executeMonitor (st : SystemState) (now : ℕ) (noise : ℚ) :
    MonitorResult × SystemState :=
  let cpu := simCpu st noise
  let memory : ℚ := max 0 (min 100 (cpu * 0.8 + 20))
  let st' :=
    if 90 < cpu then
      if st.systemStatus ≠ .CRITICAL then
        { st with systemStatus := .CRITICAL, lastAlertTime := some now }
      else
        st
    else
      if st.systemStatus = .CRITICAL then
        let startTime : ℕ := st.lastAlertTime.getD now
        let report : IncidentReport :=
          { incident_id := st.activeIncidentId.getD (mkIncidentId now)
            start_time := st.lastAlertTime.getD now
            end_time := now
            mttr_seconds := ((now : ℚ) - (startTime : ℚ)) / 1000
            actions_taken := ["Scaled to " ++ toString st.activeReplicas ++ " replicas"]
            final_status := "resolved" }
        { st with systemStatus := .HEALTHY
                  incidentReports := st.incidentReports ++ [report]
                  activeIncidentId := none
                  lastAlertTime := none }
      else
        { st with systemStatus := .HEALTHY }
  (⟨st'.systemStatus, cpu, memory, st.activeReplicas,
     st'.systemStatus == .CRITICAL⟩, st')

/-- Return shape of `executeScale`. -/
structure ScaleResult where
  success : Bool
  message : String
  approvalRequired : Bool := false
  approvalId : Option String := none
deriving DecidableEq

/-- `executeScale` (`server.ts`, lines 208-337, simulation mode): policy
check first (unless bypassed), park a `PendingApproval` on a defer,
fail without mutation on a deny, otherwise set `activeReplicas`. -/
def executeScale (st : SystemState) (replicas : ℚ) (bypassPolicy : Bool)
    (freshId : String) (now : ℕ) : ScaleResult × SystemState :=
  let policyCheck :=
    if bypassPolicy then ({ allowed := true } : PolicyResult)
    else validateScale (.finite replicas)
  if policyCheck.approvalRequired then
    let approval : PendingApproval :=
      { id := freshId, action := .scale, details := { replicas := replicas },
        timestamp := now }
    ({ success := false
       message := "Action requires admin approval. Approval ID: " ++ freshId
       approvalRequired := true
       approvalId := some freshId },
     { st with pendingApprovals := mapSet st.pendingApprovals approval })
  else if !policyCheck.allowed then
    ({ success := false
       message := "Action Blocked: " ++ policyCheck.reason.getD "undefined" },
     st)
  else
    let st' := { st with activeReplicas := replicas }
    let totalCapacity := replicas * CAPACITY_PER_REPLICA
    let projectedCpu : ℚ :=
      min 100 ((jsRound (st.currentLoad / totalCapacity * 100) : ℚ))
    ({ success := true
       message := "Scaled to " ++ toString replicas ++ " replicas. Projected CPU: "
                    ++ toString projectedCpu ++ "%" },
     st')

/-- `executeRollback` (`server.ts`, simulation mode): audit-only policy
check, then reset `activeReplicas` to the baseline 3 without touching
health. -/
def executeRollback (st : SystemState) : ScaleResult × SystemState :=
  let _ := validateRollback
  ({ success := true, message := "Rollback successful. Replicas reset to 3." },
   { st with activeReplicas := 3 })

/-- The JSON payload of `GET /api/status` (simulation mode). -/
structure StatusResponse where
  status : HealthStatus
  replicas : ℚ
  lastAlertTime : Option ℕ
  autoPilotMode : Bool
deriving DecidableEq

/-- `GET /api/status` (`server.ts`, lines 419-440, simulation mode):
recomputes the noiseless cpu and overwrites `systemStatus` when the
recomputed classification differs. -/
def getStatus (st : SystemState) : StatusResponse × SystemState :=
  let cpu : ℚ :=
    min 100 ((jsRound (st.currentLoad / (st.activeReplicas * CAPACITY_PER_REPLICA) * 100) : ℚ))
  let status : HealthStatus := if 90 < cpu then .CRITICAL else .HEALTHY
  let st' := if status ≠ st.systemStatus then { st with systemStatus := status } else st
  (⟨st'.systemStatus, st'.activeReplicas, st'.lastAlertTime, st'.autoPilotMode⟩, st')

/-- The autopilot `setTimeout` recorded as data: the delay in ms, the
target replica count it will pass to `executeScale`, and whether the
policy gate is bypassed at fire time. -/
structure ScheduledScale where
  delayMs : ℕ
  targetReplicas : ℚ
  bypassPolicy : Bool
deriving DecidableEq

/-- The JSON payload of `POST /api/trigger-alert`. -/
structure TriggerResult where
  error : Bool
  message : String
  load : ℚ
deriving DecidableEq

/-- `POST /api/trigger-alert` (`server.ts`, lines 446-510): 409 while
CRITICAL; otherwise escalate the load, set CRITICAL directly, open an
incident, and (when autopilot is on) schedule `executeScale(target)`
after 2000 ms with the policy gate not bypassed. -/
def triggerAlert (st : SystemState) (now : ℕ) :
    TriggerResult × SystemState × Option ScheduledScale :=
  if st.systemStatus = .CRITICAL then
    (⟨true, "Alert already active", st.currentLoad⟩, st, none)
  else
    let count := st.incidentCount + 1
    let loadSpike : ℚ := 500 + (count : ℚ) * 500
    let st' :=
      { st with incidentCount := count
                currentLoad := loadSpike
                systemStatus := .CRITICAL
                lastAlertTime := some now
                activeIncidentId := some (mkIncidentId now) }
    let sched :=
      if st.autoPilotMode then
        let neededReplicas : ℤ := ⌈loadSpike * 1.2 / CAPACITY_PER_REPLICA⌉
        let targetReplicas : ℚ := max (neededReplicas : ℚ) (st.activeReplicas + 2)
        some (⟨2000, targetReplicas, false⟩ : ScheduledScale)
      else
        none
    (⟨false, "Alert triggered", loadSpike⟩, st', sched)

/-- The JSON payload of `POST /api/approvals/:id/approve`. -/
structure ApproveResponse where
  ok : Bool
  result : Option ScaleResult
deriving DecidableEq

/-- `POST /api/approvals/:id/approve` (`server.ts`, lines 566-589): look
up the approval, re-invoke `executeScale` with the stored replica count
and the policy bypassed, then delete the approval. -/
def approvePending (st : SystemState) (id : String) (now : ℕ) :
    ApproveResponse × SystemState :=
  match mapGet st.pendingApprovals id with
  | none => (⟨false, none⟩, st)
  | some approval =>
    match approval.action with
    | .scale =>
      let rs := executeScale st approval.details.replicas true "" now
      (⟨true, some rs.1⟩,
       { rs.2 with pendingApprovals := mapDelete rs.2.pendingApprovals id })

/-! ## Helper lemmas -/

/-- A key absent from the approvals map makes `any` on that key false. -/
theorem mapGet_none_any (m : List PendingApproval) (id : String)
    (h : mapGet m id = none) : m.any (fun q => q.id == id) = false := by
  rw [mapGet, List.find?_eq_none] at h
  rw [List.any_eq_false]
  intro p hp
  simpa using h p hp

/-- Deleting a key removes it from the approvals map. -/
theorem mapGet_mapDelete (m : List PendingApproval) (id : String) :
    mapGet (mapDelete m id) id = none := by
  rw [mapGet, List.find?_eq_none]
  intro p hp
  rw [mapDelete] at hp
  have hmem := List.of_mem_filter hp
  simpa using hmem

/-- A monitor pass on a HEALTHY state whose cpu reading is not above the
critical threshold leaves the state untouched. -/
theorem executeMonitor_healthy_noop (st : SystemState) (now : ℕ) (noise : ℚ)
    (hh : st.systemStatus = .HEALTHY) (hcpu : ¬ 90 < simCpu st noise) :
    (executeMonitor st now noise).2 = st := by
  have h1 : ¬ st.systemStatus = HealthStatus.CRITICAL := by
    rw [hh]; exact fun h => HealthStatus.noConfusion h
  simp only [executeMonitor, if_neg hcpu, if_neg h1]
  rw [← hh]

/-! ## Claims -/

/-- C1: `validateScale` is a total case analysis on its replicas argument,
checked in order with short-circuit at the first failing rule: non-finite
yields Deny (must be finite); finite non-integer yields Deny (whole
number); negative integer yields Deny (cannot be negative); zero yields
Deny (cannot scale to zero replicas); integers strictly above 10 yield a
Defer (approval-required) verdict carrying the request details; and
integers between 1 and 10 yield Admit. -/
theorem validateScale_case_analysis :
    (validateScale .nan
        = { allowed := false, reason := some "Replicas must be a finite number" }
      ∧ validateScale .posInf
        = { allowed := false, reason := some "Replicas must be a finite number" }
      ∧ validateScale .negInf
        = { allowed := false, reason := some "Replicas must be a finite number" })
    ∧ (∀ q : ℚ, q.den ≠ 1 →
        validateScale (.finite q)
          = { allowed := false, reason := some "Replicas must be a whole number" })
    ∧ (∀ q : ℚ, q.den = 1 → q < 0 →
        validateScale (.finite q)
          = { allowed := false, reason := some "Replicas cannot be negative" })
    ∧ validateScale (.finite 0)
        = { allowed := false,
            reason := some "Cannot scale to zero replicas (would cause downtime)" }
    ∧ (∀ q : ℚ, q.den = 1 → 10 < q →
        validateScale (.finite q)
          = { allowed := false, approvalRequired := true,
              reason := some "Policy Warning: High scale (>10) requires manual approval",
              requestDetails := some q })
    ∧ (∀ q : ℚ, q.den = 1 → 1 ≤ q → q ≤ 10 →
        validateScale (.finite q) = { allowed := true }) := by
  refine ⟨⟨rfl, rfl, rfl⟩, ?_, ?_, by decide, ?_, ?_⟩
  · intro q hq
    simp [validateScale, JSNumber.isFinite, JSNumber.isInteger, hq]
  · intro q hq hneg
    simp [validateScale, JSNumber.isFinite, JSNumber.isInteger, JSNumber.ltZero,
          hq, hneg]
  · intro q hq hgt
    have h0 : ¬ q < 0 := by linarith
    have hz : ¬ q = 0 := by intro h; rw [h] at hgt; norm_num at hgt
    simp [validateScale, JSNumber.isFinite, JSNumber.isInteger, JSNumber.ltZero,
          JSNumber.eqZero, JSNumber.gtTen, JSNumber.toRat, hq, hgt, h0, hz]
  · intro q hq h1 h10
    have h0 : ¬ q < 0 := by linarith
    have hz : ¬ q = 0 := by intro h; rw [h] at h1; norm_num at h1
    have hg : ¬ 10 < q := by linarith
    simp [validateScale, JSNumber.isFinite, JSNumber.isInteger, JSNumber.ltZero,
          JSNumber.eqZero, JSNumber.gtTen, hq, h0, hz, hg]

/-- Witness for C1 at the admitted input 5. -/
theorem validateScale_case_analysis_witness :
    (5 : ℚ).den = 1 ∧ (1 : ℚ) ≤ 5 ∧ (5 : ℚ) ≤ 10
      ∧ validateScale (.finite 5) = { allowed := true } :=
  ⟨by decide, by decide, by decide,
   validateScale_case_analysis.2.2.2.2.2 5 (by decide) (by decide) (by decide)⟩

/-- C2: a scale request executed without policy bypass whose verdict is
not Admit mutates neither replicas nor health nor demand; a Deny verdict
returns failure carrying the deny reason, and a Defer verdict returns
approvalRequired with the approval id and creates exactly one new
`PendingApproval` whose `details.replicas` equals the requested count. -/
theorem executeScale_nonAdmit (st : SystemState) (replicas : ℚ) (freshId : String) (now : ℕ)
    (hv : (validateScale (.finite replicas)).allowed = false)
    (hfresh : mapGet st.pendingApprovals freshId = none) :
    (executeScale st replicas false freshId now).2.activeReplicas = st.activeReplicas
    ∧ (executeScale st replicas false freshId now).2.systemStatus = st.systemStatus
    ∧ (executeScale st replicas false freshId now).2.currentLoad = st.currentLoad
    ∧ (if (validateScale (.finite replicas)).approvalRequired then
        (executeScale st replicas false freshId now).1.success = false
        ∧ (executeScale st replicas false freshId now).1.approvalRequired = true
        ∧ (executeScale st replicas false freshId now).1.approvalId = some freshId
        ∧ (executeScale st replicas false freshId now).2.pendingApprovals
            = st.pendingApprovals
                ++ [{ id := freshId, action := .scale,
                      details := { replicas := replicas }, timestamp := now }]
      else
        (executeScale st replicas false freshId now).1.success = false
        ∧ (executeScale st replicas false freshId now).1.approvalRequired = false
        ∧ (executeScale st replicas false freshId now).1.message
            = "Action Blocked: "
                ++ ((validateScale (.finite replicas)).reason.getD "undefined")
        ∧ (executeScale st replicas false freshId now).2.pendingApprovals
            = st.pendingApprovals) := by
  have hset : mapSet st.pendingApprovals
        { id := freshId, action := .scale, details := { replicas := replicas },
          timestamp := now }
      = st.pendingApprovals
          ++ [{ id := freshId, action := .scale, details := { replicas := replicas },
                timestamp := now }] := by
    rw [mapSet, if_neg]
    rw [mapGet_none_any st.pendingApprovals freshId hfresh]
    exact fun h => Bool.noConfusion h
  cases hreq : (validateScale (.finite replicas)).approvalRequired with
  | true =>
    simp only [executeScale, Bool.false_eq_true, if_false, hreq, if_true, hset]
    simp
  | false =>
    simp only [executeScale, Bool.false_eq_true, if_false, hreq, hv,
               Bool.not_false, if_true]
    simp

/-- Witness for C2 at the deferred input 15 on the initial state. -/
theorem executeScale_nonAdmit_witness :
    (validateScale (.finite 15)).allowed = false
    ∧ mapGet initialState.pendingApprovals "a" = none
    ∧ ((executeScale initialState 15 false "a" 0).2.activeReplicas
          = initialState.activeReplicas
       ∧ (executeScale initialState 15 false "a" 0).2.systemStatus
          = initialState.systemStatus
       ∧ (executeScale initialState 15 false "a" 0).2.currentLoad
          = initialState.currentLoad
       ∧ (if (validateScale (.finite 15)).approvalRequired then
            (executeScale initialState 15 false "a" 0).1.success = false
            ∧ (executeScale initialState 15 false "a" 0).1.approvalRequired = true
            ∧ (executeScale initialState 15 false "a" 0).1.approvalId = some "a"
            ∧ (executeScale initialState 15 false "a" 0).2.pendingApprovals
                = initialState.pendingApprovals
                    ++ [{ id := "a", action := .scale,
                          details := { replicas := 15 }, timestamp := 0 }]
          else
            (executeScale initialState 15 false "a" 0).1.success = false
            ∧ (executeScale initialState 15 false "a" 0).1.approvalRequired = false
            ∧ (executeScale initialState 15 false "a" 0).1.message
                = "Action Blocked: "
                    ++ ((validateScale (.finite 15)).reason.getD "undefined")
            ∧ (executeScale initialState 15 false "a" 0).2.pendingApprovals
                = initialState.pendingApprovals)) :=
  ⟨by decide, by decide,
   executeScale_nonAdmit initialState 15 "a" 0 (by decide) (by decide)⟩

/-- C3: with autopilot enabled, a firing alert schedules a scale call
after a 2000 ms delay, not bypassing the policy gate, whose target is
`max (ceil (newLoad * 1.2 / 200)) (currentReplicas + 2)` computed from
the post-spike demand. -/
theorem autopilot_plan (st : SystemState) (now : ℕ)
    (hap : st.autoPilotMode = true) (hh : st.systemStatus = .HEALTHY) :
    (triggerAlert st now).2.2
      = some { delayMs := 2000
               targetReplicas :=
                 max ((⌈(500 + ((st.incidentCount + 1 : ℕ) : ℚ) * 500) * 1.2
                         / CAPACITY_PER_REPLICA⌉ : ℤ) : ℚ)
                     (st.activeReplicas + 2)
               bypassPolicy := false } := by
  have h1 : ¬ st.systemStatus = HealthStatus.CRITICAL := by
    rw [hh]; exact fun h => HealthStatus.noConfusion h
  simp only [triggerAlert, if_neg h1, hap, if_true]

/-- The initial state with autopilot switched on (scenario C). -/
def apState : SystemState := { initialState with autoPilotMode := true }

/-- Witness for C3: demand 1000 (first alert) and 3 replicas give target 6. -/
theorem autopilot_plan_witness :
    apState.autoPilotMode = true ∧ apState.systemStatus = .HEALTHY
    ∧ (triggerAlert apState 0).2.2
        = some { delayMs := 2000, targetReplicas := 6, bypassPolicy := false } := by
  refine ⟨rfl, rfl, ?_⟩
  rw [autopilot_plan apState 0 rfl rfl]
  have hceil : (⌈(500 + (((0 : ℕ) + 1 : ℕ) : ℚ) * 500) * 1.2 / CAPACITY_PER_REPLICA⌉ : ℤ) = 6 := by
    norm_num [CAPACITY_PER_REPLICA]
  simp only [apState, initialState]
  rw [hceil]
  norm_num

/-- C4 counterexample: the monitor's cpu reading is not the pure formula
`min 100 (round (100 * demand / (replicas * 200)))`; the code adds
`Math.random() * 5 - 2.5` before clamping.  With the attainable noise
value 2, demand 100 and 3 replicas report cpu 19, not 17. -/
theorem monitor_cpu_formula_counterexample :
    (-(5 / 2) : ℚ) ≤ 2 ∧ (2 : ℚ) < 5 / 2
    ∧ (executeMonitor initialState 0 2).1.cpu_load = 19
    ∧ simCpuBase initialState = 17
    ∧ ¬ (executeMonitor initialState 0 2).1.cpu_load = simCpuBase initialState := by
  have hbase : simCpuBase initialState = 17 := by
    rw [simCpuBase]
    norm_num [initialState, jsRound, CAPACITY_PER_REPLICA]
  have hcpu : (executeMonitor initialState 0 2).1.cpu_load = 19 := by
    show simCpu initialState 2 = 19
    rw [simCpu, hbase]
    norm_num
  refine ⟨by norm_num, by norm_num, hcpu, hbase, ?_⟩
  rw [hcpu, hbase]
  norm_num

/-- C4 amended: the reported cpu is the pure formula plus the noise term,
clamped to [0, 100]; the reported memory is `clamp (cpu * 0.8 + 20)` of
the reported cpu; and at demand 100 with 3 replicas the base cpu is 17
and health stays HEALTHY for every attainable noise value. -/
theorem monitor_metrics_formula (st : SystemState) (now : ℕ) (noise : ℚ)
    (h1 : (-(5 / 2) : ℚ) ≤ noise) (h2 : noise < 5 / 2) :
    (executeMonitor st now noise).1.cpu_load = max 0 (min 100 (simCpuBase st + noise))
    ∧ (executeMonitor st now noise).1.memory_usage
        = max 0 (min 100 ((executeMonitor st now noise).1.cpu_load * 0.8 + 20))
    ∧ (st.currentLoad = 100 → st.activeReplicas = 3 → st.systemStatus = .HEALTHY →
        (executeMonitor st now noise).1.cpu_load = max 0 (min 100 (17 + noise))
        ∧ (executeMonitor st now noise).1.status = .HEALTHY) := by
  refine ⟨rfl, rfl, fun hl hr hh => ?_⟩
  have hbase : simCpuBase st = 17 := by
    rw [simCpuBase, hl, hr]
    norm_num [jsRound, CAPACITY_PER_REPLICA]
  have hcpu : ¬ 90 < simCpu st noise := by
    rw [simCpu, hbase]
    have hmin : min 100 (17 + noise) ≤ 17 + noise := min_le_right _ _
    have : max 0 (min 100 (17 + noise)) ≤ 90 := by
      apply max_le
      · norm_num
      · linarith
    exact not_lt.mpr this
  have h1' : ¬ st.systemStatus = HealthStatus.CRITICAL := by
    rw [hh]; exact fun h => HealthStatus.noConfusion h
  constructor
  · show simCpu st noise = max 0 (min 100 (17 + noise))
    rw [simCpu, hbase]
  · show (if 90 < simCpu st noise then _ else _ : SystemState).systemStatus = _
    rw [if_neg hcpu, if_neg h1']

/-- Witness for C4 amended at the initial state with noise 1. -/
theorem monitor_metrics_formula_witness :
    ((-(5 / 2) : ℚ) ≤ 1) ∧ ((1 : ℚ) < 5 / 2)
    ∧ ((executeMonitor initialState 0 1).1.cpu_load
          = max 0 (min 100 (simCpuBase initialState + 1))
       ∧ (executeMonitor initialState 0 1).1.memory_usage
          = max 0 (min 100 ((executeMonitor initialState 0 1).1.cpu_load * 0.8 + 20))
       ∧ (initialState.currentLoad = 100 → initialState.activeReplicas = 3 →
            initialState.systemStatus = .HEALTHY →
            (executeMonitor initialState 0 1).1.cpu_load = max 0 (min 100 (17 + 1))
            ∧ (executeMonitor initialState 0 1).1.status = .HEALTHY)) :=
  ⟨by norm_num, by norm_num,
   monitor_metrics_formula initialState 0 1 (by norm_num) (by norm_num)⟩

/-- A HEALTHY state under overload (scenario for the monitor upgrade path). -/
def c5State : SystemState := { initialState with currentLoad := 1000 }

/-- The monitor upgrade path on `c5State` reads cpu above the threshold. -/
theorem c5State_cpu : 90 < simCpu c5State 0 := by
  have hbase : simCpuBase c5State = 100 := by
    rw [simCpuBase]
    norm_num [c5State, initialState, jsRound, CAPACITY_PER_REPLICA]
  rw [simCpu, hbase]
  norm_num

/-- C5 counterexample: the classifier's HEALTHY→CRITICAL upgrade (cpu > 90
in `executeMonitor`) records the alert timestamp and sets CRITICAL but
opens no Incident and leaves `incidentCount` untouched. -/
theorem monitor_upgrade_counterexample :
    c5State.systemStatus = .HEALTHY
    ∧ c5State.activeIncidentId = none
    ∧ c5State.incidentCount = 0
    ∧ 90 < simCpu c5State 0
    ∧ (executeMonitor c5State 1000 0).2.systemStatus = .CRITICAL
    ∧ (executeMonitor c5State 1000 0).2.lastAlertTime = some 1000
    ∧ (executeMonitor c5State 1000 0).2.activeIncidentId = none
    ∧ (executeMonitor c5State 1000 0).2.incidentCount = 0 := by
  have hne : ¬ c5State.systemStatus = HealthStatus.CRITICAL := by
    intro h; exact HealthStatus.noConfusion h
  have hst : (executeMonitor c5State 1000 0).2
      = { c5State with systemStatus := .CRITICAL, lastAlertTime := some 1000 } := by
    simp only [executeMonitor, if_pos c5State_cpu, ne_eq, if_pos hne]
  refine ⟨rfl, rfl, rfl, c5State_cpu, ?_, ?_, ?_, ?_⟩ <;> (rw [hst]; try rfl)

/-- C5 amended: a HEALTHY→CRITICAL transition in the monitor classifier
records the alert timestamp and sets health to CRITICAL but neither opens
an Incident nor increments `incidentCount`; only the trigger-alert
operation records the timestamp, opens a new Incident, and increments the
counter. -/
theorem critical_transition_effects (st : SystemState) (now : ℕ) (noise : ℚ)
    (hh : st.systemStatus = .HEALTHY) (hcpu : 90 < simCpu st noise) :
    (executeMonitor st now noise).2
        = { st with systemStatus := .CRITICAL, lastAlertTime := some now }
    ∧ (triggerAlert st now).2.1
        = { st with incidentCount := st.incidentCount + 1
                    currentLoad := 500 + ((st.incidentCount + 1 : ℕ) : ℚ) * 500
                    systemStatus := .CRITICAL
                    lastAlertTime := some now
                    activeIncidentId := some (mkIncidentId now) } := by
  have hne : ¬ st.systemStatus = HealthStatus.CRITICAL := by
    rw [hh]; exact fun h => HealthStatus.noConfusion h
  constructor
  · simp only [executeMonitor, if_pos hcpu, ne_eq, if_pos hne]
  · simp only [triggerAlert, if_neg hne]

/-- Witness for C5 amended on the overloaded state. -/
theorem critical_transition_effects_witness :
    c5State.systemStatus = .HEALTHY ∧ 90 < simCpu c5State 0
    ∧ ((executeMonitor c5State 1000 0).2
          = { c5State with systemStatus := .CRITICAL, lastAlertTime := some 1000 }
       ∧ (triggerAlert c5State 1000).2.1
          = { c5State with incidentCount := c5State.incidentCount + 1
                           currentLoad := 500 + ((c5State.incidentCount + 1 : ℕ) : ℚ) * 500
                           systemStatus := .CRITICAL
                           lastAlertTime := some 1000
                           activeIncidentId := some (mkIncidentId 1000) }) :=
  ⟨rfl, c5State_cpu, critical_transition_effects c5State 1000 0 rfl c5State_cpu⟩

/-- State after the first alert from the initial state (open incident,
CRITICAL, load 1000). -/
def c6s1 : SystemState :=
  { systemStatus := .CRITICAL, activeReplicas := 3, lastAlertTime := some 0,
    autoPilotMode := false, currentLoad := 1000, incidentCount := 1,
    pendingApprovals := [], incidentReports := [], activeIncidentId := some "INC-0" }

/-- `c6s1` after an admitted scale to 10 replicas. -/
def c6s2 : SystemState := { c6s1 with activeReplicas := 10 }

/-- `c6s2` after the status endpoint reclassifies to HEALTHY (the open
incident survives). -/
def c6s3 : SystemState := { c6s2 with systemStatus := .HEALTHY }

/-- C6 counterexample: a state with an open incident but HEALTHY status is
reachable (alert, scale to 10, status query), and triggering an alert
there succeeds without error, mutates the state, and replaces the open
incident id; the CRITICAL→HEALTHY cycle also appended nothing to the
history. -/
theorem trigger_alert_open_incident_counterexample :
    (triggerAlert initialState 0).2.1 = c6s1
    ∧ (executeScale c6s1 10 false "x" 1).2 = c6s2
    ∧ (getStatus c6s2).2 = c6s3
    ∧ c6s3.activeIncidentId = some "INC-0"
    ∧ c6s3.systemStatus = .HEALTHY
    ∧ c6s3.incidentReports = []
    ∧ (triggerAlert c6s3 7).1.error = false
    ∧ (triggerAlert c6s3 7).2.1.activeIncidentId = some "INC-7"
    ∧ (triggerAlert c6s3 7).2.1.incidentCount = 2
    ∧ ¬ (triggerAlert c6s3 7).2.1 = c6s3 := by
  have hne0 : ¬ initialState.systemStatus = HealthStatus.CRITICAL := by
    intro h; exact HealthStatus.noConfusion h
  have h1 : (triggerAlert initialState 0).2.1 = c6s1 := by
    simp only [triggerAlert, if_neg hne0]
    simp only [initialState, c6s1, mkIncidentId]
    norm_num
    rfl
  have hval : validateScale (.finite 10) = { allowed := true } := by decide
  have h2 : (executeScale c6s1 10 false "x" 1).2 = c6s2 := by
    simp only [executeScale, Bool.false_eq_true, if_false, hval]
    rfl
  have hcpu2 : (min 100 ((jsRound (c6s2.currentLoad
      / (c6s2.activeReplicas * CAPACITY_PER_REPLICA) * 100) : ℚ)) : ℚ) = 50 := by
    norm_num [c6s2, c6s1, jsRound, CAPACITY_PER_REPLICA]
  have h3 : (getStatus c6s2).2 = c6s3 := by
    simp only [getStatus, hcpu2]
    rw [if_neg (by norm_num : ¬ (90 : ℚ) < 50)]
    rw [if_pos]
    · rfl
    · intro h; exact HealthStatus.noConfusion h
  have hne3 : ¬ c6s3.systemStatus = HealthStatus.CRITICAL := by
    intro h; exact HealthStatus.noConfusion h
  have h4 : (triggerAlert c6s3 7).2.1.incidentCount = 2 := by
    simp only [triggerAlert, if_neg hne3]
    rfl
  refine ⟨h1, h2, h3, rfl, rfl, rfl, ?_, ?_, h4, ?_⟩
  · simp only [triggerAlert, if_neg hne3]
  · simp only [triggerAlert, if_neg hne3]
    rfl
  · intro h
    rw [h] at h4
    exact absurd h4 (by decide)

/-- C6 amended: the one-alert-at-a-time guard is keyed on health, not on
the open incident: while health is CRITICAL — whatever the cpu reading —
trigger-alert fails with an error, leaves the state unchanged and
schedules nothing; and one monitor recovery (CRITICAL with cpu ≤ 90)
appends exactly one record to the closed-incident history.  (A state
with an open incident but HEALTHY health — reachable through the status
endpoint — accepts a new alert.) -/
theorem trigger_alert_guard (st : SystemState) (now : ℕ)
    (hcrit : st.systemStatus = .CRITICAL) :
    ((triggerAlert st now).1.error = true
     ∧ (triggerAlert st now).2.1 = st
     ∧ (triggerAlert st now).2.2 = none)
    ∧ ∀ noise, ¬ 90 < simCpu st noise →
        ((executeMonitor st now noise).2.incidentReports).length
            = st.incidentReports.length + 1
        ∧ (executeMonitor st now noise).2.systemStatus = .HEALTHY := by
  refine ⟨⟨?_, ?_, ?_⟩, ?_⟩
  · simp only [triggerAlert, if_pos hcrit]
  · simp only [triggerAlert, if_pos hcrit]
  · simp only [triggerAlert, if_pos hcrit]
  · intro noise hcpu
    constructor
    · simp only [executeMonitor, if_neg hcpu, if_pos hcrit]
      simp
    · simp only [executeMonitor, if_neg hcpu, if_pos hcrit]

/-- The cpu reading on `c6s2` (CRITICAL, 10 replicas, load 1000) is 50. -/
theorem c6s2_cpu_le : ¬ 90 < simCpu c6s2 0 := by
  have hbase : simCpuBase c6s2 = 50 := by
    rw [simCpuBase]
    norm_num [c6s2, c6s1, jsRound, CAPACITY_PER_REPLICA]
  rw [simCpu, hbase]
  norm_num

/-- Witness for C6 amended on the CRITICAL state `c6s2`: the guard holds
with no condition on the cpu, and the recovery part fires at noise 0. -/
theorem trigger_alert_guard_witness :
    c6s2.systemStatus = .CRITICAL ∧ ¬ 90 < simCpu c6s2 0
    ∧ (((triggerAlert c6s2 9).1.error = true
        ∧ (triggerAlert c6s2 9).2.1 = c6s2
        ∧ (triggerAlert c6s2 9).2.2 = none)
       ∧ ∀ noise, ¬ 90 < simCpu c6s2 noise →
          ((executeMonitor c6s2 9 noise).2.incidentReports).length
              = c6s2.incidentReports.length + 1
          ∧ (executeMonitor c6s2 9 noise).2.systemStatus = .HEALTHY)
    ∧ (((executeMonitor c6s2 9 0).2.incidentReports).length
          = c6s2.incidentReports.length + 1
       ∧ (executeMonitor c6s2 9 0).2.systemStatus = .HEALTHY) :=
  ⟨rfl, c6s2_cpu_le, trigger_alert_guard c6s2 9 rfl,
   (trigger_alert_guard c6s2 9 rfl).2 0 c6s2_cpu_le⟩

/-- The monitor recovery branch in full: while CRITICAL with cpu ≤ 90 the
state becomes HEALTHY, the alert timestamp and incident id are cleared,
and one report is appended (fallback id when no incident is open). -/
theorem executeMonitor_recovery_state (st : SystemState) (now : ℕ) (noise : ℚ)
    (hcrit : st.systemStatus = .CRITICAL) (hcpu : ¬ 90 < simCpu st noise) :
    (executeMonitor st now noise).2
      = { st with systemStatus := .HEALTHY
                  incidentReports := st.incidentReports
                    ++ [{ incident_id := st.activeIncidentId.getD (mkIncidentId now)
                          start_time := st.lastAlertTime.getD now
                          end_time := now
                          mttr_seconds :=
                            ((now : ℚ) - ((st.lastAlertTime.getD now : ℕ) : ℚ)) / 1000
                          actions_taken :=
                            ["Scaled to " ++ toString st.activeReplicas ++ " replicas"]
                          final_status := "resolved" }]
                  activeIncidentId := none
                  lastAlertTime := none } := by
  simp only [executeMonitor, if_neg hcpu, if_pos hcrit]

/-- A CRITICAL state with no open incident (reachable when the monitor
classifier itself raised the alert, which opens no incident). -/
def c7State : SystemState :=
  { systemStatus := .CRITICAL, activeReplicas := 10, lastAlertTime := some 5000,
    autoPilotMode := false, currentLoad := 1000, incidentCount := 1,
    pendingApprovals := [], incidentReports := [], activeIncidentId := none }

/-- The cpu reading on `c7State` is 50, below the threshold. -/
theorem c7State_cpu_le : ¬ 90 < simCpu c7State 0 := by
  have hbase : simCpuBase c7State = 50 := by
    rw [simCpuBase]
    norm_num [c7State, jsRound, CAPACITY_PER_REPLICA]
  rw [simCpu, hbase]
  norm_num

/-- C7 counterexample: a recovery signal (CRITICAL, cpu ≤ 90) with no
open incident is not a no-op: the simulation recovery branch still
appends a report, minting the fallback id `INC-now`, and mutates state. -/
theorem recovery_no_incident_counterexample :
    c7State.activeIncidentId = none
    ∧ ¬ 90 < simCpu c7State 0
    ∧ (executeMonitor c7State 8000 0).2.incidentReports.length = 1
    ∧ ((executeMonitor c7State 8000 0).2.incidentReports.map
          (fun r => r.incident_id)) = ["INC-8000"]
    ∧ ¬ (executeMonitor c7State 8000 0).2 = c7State := by
  have hst := executeMonitor_recovery_state c7State 8000 0 rfl c7State_cpu_le
  refine ⟨rfl, c7State_cpu_le, ?_, ?_, ?_⟩
  · rw [hst]; rfl
  · rw [hst]; rfl
  · intro h
    have hlen : (executeMonitor c7State 8000 0).2.incidentReports.length = 1 := by
      rw [hst]; rfl
    rw [h] at hlen
    exact absurd hlen (by decide)

/-- C7 amended: the simulation recovery branch always appends a report on
a CRITICAL→(cpu ≤ 90) signal, minting the fallback id `INC-now` when no
incident is open; a further recovery signal after it (health now HEALTHY)
is a complete no-op, so two consecutive recovery signals append exactly
one record, the second changing nothing. -/
theorem recovery_without_incident (st : SystemState) (now : ℕ) (noise : ℚ)
    (hcrit : st.systemStatus = .CRITICAL)
    (hnone : st.activeIncidentId = none)
    (hcpu : ¬ 90 < simCpu st noise) :
    (executeMonitor st now noise).2.incidentReports
      = st.incidentReports
          ++ [{ incident_id := mkIncidentId now
                start_time := st.lastAlertTime.getD now
                end_time := now
                mttr_seconds := ((now : ℚ) - ((st.lastAlertTime.getD now : ℕ) : ℚ)) / 1000
                actions_taken := ["Scaled to " ++ toString st.activeReplicas ++ " replicas"]
                final_status := "resolved" }]
    ∧ ∀ now2 noise2, ¬ 90 < simCpu (executeMonitor st now noise).2 noise2 →
        (executeMonitor (executeMonitor st now noise).2 now2 noise2).2
          = (executeMonitor st now noise).2 := by
  have hst := executeMonitor_recovery_state st now noise hcrit hcpu
  constructor
  · rw [hst, hnone]
    rfl
  · intro now2 noise2 h2
    refine executeMonitor_healthy_noop _ now2 noise2 ?_ h2
    rw [hst]

/-- Witness for C7 amended on `c7State`. -/
theorem recovery_without_incident_witness :
    c7State.systemStatus = .CRITICAL ∧ c7State.activeIncidentId = none
    ∧ ¬ 90 < simCpu c7State 0
    ∧ ((executeMonitor c7State 8000 0).2.incidentReports
        = c7State.incidentReports
            ++ [{ incident_id := mkIncidentId 8000
                  start_time := c7State.lastAlertTime.getD 8000
                  end_time := 8000
                  mttr_seconds :=
                    ((8000 : ℚ) - ((c7State.lastAlertTime.getD 8000 : ℕ) : ℚ)) / 1000
                  actions_taken :=
                    ["Scaled to " ++ toString c7State.activeReplicas ++ " replicas"]
                  final_status := "resolved" }]
       ∧ ∀ now2 noise2, ¬ 90 < simCpu (executeMonitor c7State 8000 0).2 noise2 →
          (executeMonitor (executeMonitor c7State 8000 0).2 now2 noise2).2
            = (executeMonitor c7State 8000 0).2) :=
  ⟨rfl, rfl, c7State_cpu_le,
   recovery_without_incident c7State 8000 0 rfl rfl c7State_cpu_le⟩

/-- C8: closing an incident opened at `t0` by a recovery at `now` appends
a report whose `mttr_seconds` is exactly `(now - t0) / 1000` seconds,
computed at close from the recorded alert timestamp, with matching
`start_time` and `end_time`. -/
theorem mttr_computation (st : SystemState) (now t0 : ℕ) (iid : String) (noise : ℚ)
    (hcrit : st.systemStatus = .CRITICAL)
    (halert : st.lastAlertTime = some t0)
    (hid : st.activeIncidentId = some iid)
    (hcpu : ¬ 90 < simCpu st noise) :
    (executeMonitor st now noise).2.incidentReports
      = st.incidentReports
          ++ [{ incident_id := iid
                start_time := t0
                end_time := now
                mttr_seconds := ((now : ℚ) - (t0 : ℚ)) / 1000
                actions_taken := ["Scaled to " ++ toString st.activeReplicas ++ " replicas"]
                final_status := "resolved" }] := by
  have hst := executeMonitor_recovery_state st now noise hcrit hcpu
  rw [hst, halert, hid]
  rfl

/-- A CRITICAL state with an incident opened at time 5000. -/
def c8State : SystemState :=
  { systemStatus := .CRITICAL, activeReplicas := 10, lastAlertTime := some 5000,
    autoPilotMode := false, currentLoad := 1000, incidentCount := 1,
    pendingApprovals := [], incidentReports := [], activeIncidentId := some "INC-5000" }

/-- The cpu reading on `c8State` is 50, below the threshold. -/
theorem c8State_cpu_le : ¬ 90 < simCpu c8State 0 := by
  have hbase : simCpuBase c8State = 50 := by
    rw [simCpuBase]
    norm_num [c8State, jsRound, CAPACITY_PER_REPLICA]
  rw [simCpu, hbase]
  norm_num

/-- Witness for C8: recovery at 8000 of the incident opened at 5000
reports an MTTR of 3 seconds. -/
theorem mttr_computation_witness :
    c8State.systemStatus = .CRITICAL
    ∧ c8State.lastAlertTime = some 5000
    ∧ c8State.activeIncidentId = some "INC-5000"
    ∧ ¬ 90 < simCpu c8State 0
    ∧ (executeMonitor c8State 8000 0).2.incidentReports
        = c8State.incidentReports
            ++ [{ incident_id := "INC-5000"
                  start_time := 5000
                  end_time := 8000
                  mttr_seconds := (((8000 : ℕ) : ℚ) - ((5000 : ℕ) : ℚ)) / 1000
                  actions_taken :=
                    ["Scaled to " ++ toString c8State.activeReplicas ++ " replicas"]
                  final_status := "resolved" }] :=
  ⟨rfl, rfl, rfl, c8State_cpu_le,
   mttr_computation c8State 8000 5000 "INC-5000" 0 rfl rfl rfl c8State_cpu_le⟩

/-- C9: approving a pending scale approval re-invokes the scale action
with the policy bypassed, so the stored replica count is applied to
`activeReplicas` (even though it exceeds 10), and the approval is
destroyed by the lookup key being deleted. -/
theorem approve_executes_bypass (st : SystemState) (id : String) (apr : PendingApproval)
    (now : ℕ) (hget : mapGet st.pendingApprovals id = some apr) :
    (approvePending st id now).1.ok = true
    ∧ (approvePending st id now).2.activeReplicas = apr.details.replicas
    ∧ mapGet (approvePending st id now).2.pendingApprovals id = none
    ∧ (approvePending st id now).1.result
        = some (executeScale st apr.details.replicas true "" now).1 := by
  obtain ⟨aid, act, det, ts⟩ := apr
  cases act
  have hexec : (executeScale st det.replicas true "" now).2
      = { st with activeReplicas := det.replicas } := by
    simp [executeScale]
  simp only [approvePending, hget]
  refine ⟨?_, ?_, ?_, ?_⟩
  all_goals first
    | exact True.intro
    | (exact mapGet_mapDelete _ _)
    | (rw [hexec]; try rfl)

/-- The state after `scale(15)` defers on the initial state (scenario D). -/
def c9Deferred : SystemState := (executeScale initialState 15 false "a" 0).2

/-- Witness for C9 (scenario D): `scale(15)` defers and parks an
approval; approving it sets `activeReplicas` to 15 and removes it. -/
theorem approve_executes_bypass_witness :
    (executeScale initialState 15 false "a" 0).1.approvalRequired = true
    ∧ mapGet c9Deferred.pendingApprovals "a"
        = some { id := "a", action := .scale, details := { replicas := 15 }, timestamp := 0 }
    ∧ ((approvePending c9Deferred "a" 1).1.ok = true
       ∧ (approvePending c9Deferred "a" 1).2.activeReplicas = 15
       ∧ mapGet (approvePending c9Deferred "a" 1).2.pendingApprovals "a" = none
       ∧ (approvePending c9Deferred "a" 1).1.result
           = some (executeScale c9Deferred 15 true "" 1).1) :=
  ⟨by decide, by decide,
   approve_executes_bypass c9Deferred "a"
     { id := "a", action := .scale, details := { replicas := 15 }, timestamp := 0 }
     1 (by decide)⟩

/-- A CRITICAL state with an open incident whose load is already covered
by its replica count. -/
def c10State : SystemState :=
  { systemStatus := .CRITICAL, activeReplicas := 10, lastAlertTime := some 0,
    autoPilotMode := false, currentLoad := 1000, incidentCount := 1,
    pendingApprovals := [], incidentReports := [], activeIncidentId := some "INC-0" }

/-- C10 counterexample: the read-only status query mutates health: on a
CRITICAL state whose recomputed cpu is 50 it rewrites `systemStatus` to
HEALTHY. -/
theorem status_query_mutates_health_counterexample :
    c10State.systemStatus = .CRITICAL
    ∧ (getStatus c10State).2.systemStatus = .HEALTHY
    ∧ ¬ (getStatus c10State).2 = c10State := by
  have hcpu : (min 100 ((jsRound (c10State.currentLoad
      / (c10State.activeReplicas * CAPACITY_PER_REPLICA) * 100) : ℚ)) : ℚ) = 50 := by
    norm_num [c10State, jsRound, CAPACITY_PER_REPLICA]
  have hst : (getStatus c10State).2 = { c10State with systemStatus := .HEALTHY } := by
    simp only [getStatus, hcpu]
    rw [if_neg (by norm_num : ¬ (90 : ℚ) < 50)]
    rw [if_pos (show HealthStatus.HEALTHY ≠ c10State.systemStatus from
          fun h => HealthStatus.noConfusion h)]
  refine ⟨rfl, by rw [hst], ?_⟩
  intro h
  have hh : (getStatus c10State).2.systemStatus = .HEALTHY := by rw [hst]
  rw [h] at hh
  exact HealthStatus.noConfusion hh

/-- C10 amended: health is mutated by the monitor classifier, by
trigger-alert's direct set, and by the status query's recalculation; the
executor actions scale (every verdict, bypassed or not), rollback and
approval never change health. -/
theorem health_mutation_paths (st : SystemState) (replicas : ℚ) (b : Bool)
    (fid : String) (now : ℕ) :
    (executeScale st replicas b fid now).2.systemStatus = st.systemStatus
    ∧ (executeRollback st).2.systemStatus = st.systemStatus
    ∧ (approvePending st fid now).2.systemStatus = st.systemStatus := by
  have hscale : ∀ (r : ℚ) (bp : Bool) (f : String),
      (executeScale st r bp f now).2.systemStatus = st.systemStatus := by
    intro r bp f
    simp only [executeScale]
    repeat' split
    all_goals rfl
  refine ⟨hscale replicas b fid, rfl, ?_⟩
  rcases hg : mapGet st.pendingApprovals fid with _ | apr
  · simp only [approvePending, hg]
  · obtain ⟨aid, act, det, ts⟩ := apr
    cases act
    simp only [approvePending, hg]
    exact hscale det.replicas true ""
